import Mathlib

/-
  Verification development for the club-directory service.

  The repository ingests spreadsheet rows (lists of string cells) and decodes
  them into club records.  Two decoders are embedded here:

  * `parseClubData` - the revised single-record decoder from api/club-data.js
    (the "corrected column mapping" revision of the file), used by the
    lookup-by-code endpoint; it treats the sentinel "N/A" as empty.
  * `clubL` together with `listActive` - the full-listing decoder from
    api/clubs.js, which filters the data rows by the active flag and decodes
    every survivor.

  JavaScript string and number primitives used by the source
  (toLowerCase, the regex replace of runs of characters outside [a-z0-9],
  parseFloat, parseInt, split, trim, includes) are modelled over
  List Char / String, with numbers as rationals and integers.
  The models cover the ASCII range and plain decimal numerals
  (no hexadecimal form, no Infinity token), which is the shape of the data
  the sheet supplies; invalid input yields none, matching a NaN result.
-/

namespace ClubDir

/-! ## Character level helpers (ASCII models of JavaScript string primitives) -/

/-- Model of `String.prototype.toLowerCase` on one character, ASCII range:
codes 65..90 are shifted to 97..122, everything else is unchanged. -/
def jsCharToLower (c : Char) : Char :=
  if 65 ≤ c.toNat ∧ c.toNat ≤ 90 then Char.ofNat (c.toNat + 32) else c

/-- Membership in the character class `[a-z0-9]` of the slug regex. -/
def isLowerAlnum (c : Char) : Prop :=
  (97 ≤ c.toNat ∧ c.toNat ≤ 122) ∨ (48 ≤ c.toNat ∧ c.toNat ≤ 57)

instance (c : Char) : Decidable (isLowerAlnum c) := by
  unfold isLowerAlnum; infer_instance

/-- Model of `toLowerCase` on a whole string. -/
def jsToLowerStr (s : String) : String := ⟨s.data.map jsCharToLower⟩

/-- One character of the regex replacement `[^a-z0-9]+ -> -`:
characters in the class are kept, all others become a dash. -/
def slugCharMap (c : Char) : Char := if isLowerAlnum c then c else '-'

/-- Collapse every maximal run of dashes to a single dash.  Mapping each
character through `slugCharMap` and then squeezing adjacent dashes is
exactly the global regex replace of `[^a-z0-9]+` by a single dash. -/
def squeezeDash : List Char → List Char
  | [] => []
  | [a] => [a]
  | a :: b :: rest =>
    if a = '-' ∧ b = '-' then squeezeDash (b :: rest)
    else a :: squeezeDash (b :: rest)

/-- Model of `.replace(/[^a-z0-9]+/g, NDASH)` where NDASH is a dash. -/
def replaceNonAlnumRuns (l : List Char) : List Char :=
  squeezeDash (l.map slugCharMap)

/-- Drop one leading dash, the `^-` half of `.replace(/(^-|-$)/g, EMPTY)`. -/
def dropLeadDash (l : List Char) : List Char :=
  if l.head? = some '-' then l.tail else l

/-- Model of `.replace(/(^-|-$)/g, EMPTY)`: with the global flag this regex
removes one dash at the start and one dash at the end of the string. -/
def stripEdgeDashes (l : List Char) : List Char :=
  (dropLeadDash ((dropLeadDash l).reverse)).reverse

/-- Slug derivation used throughout the source:
`s.toLowerCase().replace(/[^a-z0-9]+/g, DASH).replace(/(^-|-$)/g, EMPTY)`. -/
def slugList (l : List Char) : List Char :=
  stripEdgeDashes (replaceNonAlnumRuns (l.map jsCharToLower))

/-- Slug derivation on strings. -/
def slugStr (s : String) : String := ⟨slugList s.data⟩

/-- The club_code computation of api/clubs.js for the name branch:
`row[1]?.toLowerCase().replace(/[^a-z0-9]+/g, DASH)` - note that this branch
performs NO stripping of edge dashes. -/
def lowerCollapse (s : String) : String :=
  ⟨replaceNonAlnumRuns (s.data.map jsCharToLower)⟩

/-! ## Structural facts about the slug computation (used for claim C9) -/

/-- No two adjacent dashes. -/
abbrev Rdd (a b : Char) : Prop := ¬(a = '-' ∧ b = '-')

lemma rdd_symm {a b : Char} (h : Rdd a b) : Rdd b a := fun hc => h ⟨hc.2, hc.1⟩

lemma squeezeDash_head? (b : Char) (rest : List Char) :
    (squeezeDash (b :: rest)).head? = some b := by
  induction rest generalizing b with
  | nil => rfl
  | cons c rs ih =>
    by_cases h : b = '-' ∧ c = '-'
    · simp only [squeezeDash, if_pos h]
      rw [ih c, h.1, h.2]
    · simp only [squeezeDash, if_neg h, List.head?_cons]

lemma squeezeDash_chain (l : List Char) : (squeezeDash l).Chain' Rdd := by
  induction l with
  | nil => simp [squeezeDash]
  | cons a t ih =>
    cases t with
    | nil => simp [squeezeDash]
    | cons b rs =>
      by_cases h : a = '-' ∧ b = '-'
      · simpa only [squeezeDash, if_pos h] using ih
      · simp only [squeezeDash, if_neg h]
        refine List.chain'_cons'.mpr ⟨?_, ih⟩
        intro y hy
        rw [squeezeDash_head? b rs] at hy
        simp only [Option.mem_def, Option.some.injEq] at hy
        subst hy
        exact h

lemma squeezeDash_self {l : List Char} (h : l.Chain' Rdd) : squeezeDash l = l := by
  induction l with
  | nil => rfl
  | cons a t ih =>
    cases t with
    | nil => rfl
    | cons b rs =>
      rw [List.chain'_cons] at h
      simp only [squeezeDash, if_neg h.1]
      rw [ih h.2]

lemma squeezeDash_subset {l : List Char} : ∀ c ∈ squeezeDash l, c ∈ l := by
  induction l with
  | nil => simp [squeezeDash]
  | cons a t ih =>
    cases t with
    | nil => simp [squeezeDash]
    | cons b rs =>
      intro c hc
      by_cases h : a = '-' ∧ b = '-'
      · simp only [squeezeDash, if_pos h] at hc
        exact List.mem_cons_of_mem a (ih c hc)
      · simp only [squeezeDash, if_neg h] at hc
        rcases List.mem_cons.mp hc with h1 | h2
        · exact h1 ▸ List.mem_cons_self c _
        · exact List.mem_cons_of_mem a (ih c h2)

lemma dropLeadDash_subset {l : List Char} : ∀ c ∈ dropLeadDash l, c ∈ l := by
  intro c hc
  unfold dropLeadDash at hc
  split at hc
  · exact List.mem_of_mem_tail hc
  · exact hc

lemma dropLeadDash_chain {l : List Char} (h : l.Chain' Rdd) :
    (dropLeadDash l).Chain' Rdd := by
  unfold dropLeadDash
  split
  · exact h.tail
  · exact h

lemma dropLeadDash_head {l : List Char} (h : l.Chain' Rdd) :
    (dropLeadDash l).head? ≠ some '-' := by
  unfold dropLeadDash
  by_cases hh : l.head? = some '-'
  · rw [if_pos hh]
    cases l with
    | nil => simp at hh
    | cons a r =>
      simp only [List.head?_cons, Option.some.injEq] at hh
      subst hh
      cases r with
      | nil => simp
      | cons y t =>
        intro hy
        simp only [List.tail_cons, List.head?_cons, Option.some.injEq] at hy
        rw [List.chain'_cons] at h
        exact h.1 ⟨rfl, hy⟩
  · rw [if_neg hh]; exact hh

lemma getLast?_dropLeadDash (l : List Char) :
    (dropLeadDash l).getLast? = l.getLast? ∨ dropLeadDash l = [] := by
  unfold dropLeadDash
  by_cases hh : l.head? = some '-'
  · rw [if_pos hh]
    cases l with
    | nil => right; rfl
    | cons a r =>
      cases r with
      | nil => right; rfl
      | cons b t =>
        left
        simp only [List.tail_cons, List.getLast?_cons_cons]
  · rw [if_neg hh]; left; rfl

lemma chain_reverse_rdd {l : List Char} (h : l.Chain' Rdd) :
    l.reverse.Chain' Rdd := by
  rw [List.chain'_reverse]
  exact h.imp fun _ _ hab => rdd_symm hab

/-- A list is in slug canonical form: characters are lowercase alphanumeric
or dashes, no two dashes are adjacent, and neither end is a dash. -/
def SlugCanonical (l : List Char) : Prop :=
  (∀ c ∈ l, isLowerAlnum c ∨ c = '-') ∧ l.Chain' Rdd ∧
    l.head? ≠ some '-' ∧ l.getLast? ≠ some '-'

lemma replace_good (l : List Char) :
    ∀ c ∈ replaceNonAlnumRuns l, isLowerAlnum c ∨ c = '-' := by
  intro c hc
  have hm := squeezeDash_subset c hc
  obtain ⟨x, _, hx⟩ := List.mem_map.mp hm
  subst hx
  unfold slugCharMap
  by_cases h : isLowerAlnum x
  · rw [if_pos h]; exact Or.inl h
  · rw [if_neg h]; exact Or.inr rfl

lemma stripEdge_props {q : List Char}
    (hg : ∀ c ∈ q, isLowerAlnum c ∨ c = '-') (hc : q.Chain' Rdd) :
    SlugCanonical (stripEdgeDashes q) := by
  unfold stripEdgeDashes
  have hg1 : ∀ c ∈ dropLeadDash q, isLowerAlnum c ∨ c = '-' :=
    fun c h => hg c (dropLeadDash_subset c h)
  have hc1 := dropLeadDash_chain hc
  have hh1 := dropLeadDash_head hc
  have hc2 := chain_reverse_rdd hc1
  have hcy := dropLeadDash_chain hc2
  have hhy := dropLeadDash_head hc2
  refine ⟨?_, ?_, ?_, ?_⟩
  · intro c hcm
    rw [List.mem_reverse] at hcm
    exact hg1 c (List.mem_reverse.mp (dropLeadDash_subset c hcm))
  · exact chain_reverse_rdd hcy
  · rw [List.head?_reverse]
    rcases getLast?_dropLeadDash ((dropLeadDash q).reverse) with h | h
    · rw [h, List.getLast?_reverse]
      exact hh1
    · rw [h]; simp
  · rw [List.getLast?_reverse]
    exact hhy

lemma stripEdge_fix {m : List Char} (h : SlugCanonical m) :
    stripEdgeDashes m = m := by
  obtain ⟨-, -, hh, hl⟩ := h
  unfold stripEdgeDashes dropLeadDash
  rw [if_neg hh]
  have hrev : m.reverse.head? ≠ some '-' := by
    rw [List.head?_reverse]; exact hl
  rw [if_neg hrev, List.reverse_reverse]

lemma map_lower_fix {m : List Char}
    (hg : ∀ c ∈ m, isLowerAlnum c ∨ c = '-') : m.map jsCharToLower = m := by
  have hfix : ∀ c ∈ m, jsCharToLower c = c := by
    intro c hc
    rcases hg c hc with h | h
    · unfold jsCharToLower
      rw [if_neg]
      unfold isLowerAlnum at h
      omega
    · subst h; decide
  calc m.map jsCharToLower = m.map id := List.map_congr_left hfix
    _ = m := List.map_id m

lemma map_slugchar_fix {m : List Char}
    (hg : ∀ c ∈ m, isLowerAlnum c ∨ c = '-') : m.map slugCharMap = m := by
  have hfix : ∀ c ∈ m, slugCharMap c = c := by
    intro c hc
    rcases hg c hc with h | h
    · unfold slugCharMap; rw [if_pos h]
    · subst h; decide
  calc m.map slugCharMap = m.map id := List.map_congr_left hfix
    _ = m := List.map_id m

lemma slugList_canonical (l : List Char) : SlugCanonical (slugList l) := by
  unfold slugList
  exact stripEdge_props (replace_good _) (squeezeDash_chain _)

lemma slugList_fix {m : List Char} (h : SlugCanonical m) : slugList m = m := by
  have hg := h.1
  calc slugList m
      = stripEdgeDashes (squeezeDash ((m.map jsCharToLower).map slugCharMap)) := rfl
    _ = stripEdgeDashes (squeezeDash (m.map slugCharMap)) := by
        rw [map_lower_fix hg]
    _ = stripEdgeDashes (squeezeDash m) := by rw [map_slugchar_fix hg]
    _ = stripEdgeDashes m := by rw [squeezeDash_self h.2.1]
    _ = m := stripEdge_fix h

/-- Claim C9: the slug function is total and idempotent: for all strings s,
slug (slug s) = slug s, and slug of the empty string is the empty string. -/
theorem c9_slug_total_idempotent :
    (∀ s : String, slugStr (slugStr s) = slugStr s) ∧ slugStr "" = "" := by
  constructor
  · intro s
    have h2 : slugList (slugList s.data) = slugList s.data :=
      slugList_fix (slugList_canonical s.data)
    unfold slugStr
    exact congrArg String.mk h2
  · decide

/-! ## JavaScript number and string primitives -/

/-- Whitespace skipped by parseFloat / parseInt (ASCII subset). -/
def jsWs (c : Char) : Bool := c == ' ' || c == '\t' || c == '\n' || c == '\r'

/-- Split an optional leading sign from a character list; the Bool is true
for a minus sign. -/
def splitSign : List Char → Bool × List Char
  | '-' :: r => (true, r)
  | '+' :: r => (false, r)
  | l => (false, l)

/-- Value of a string of decimal digits. -/
def natOfDigits (l : List Char) : ℕ :=
  l.foldl (fun n c => 10 * n + (c.toNat - 48)) 0

/-- Exponent part of a decimal numeral, after the letter e: an optional sign
and digits; with no digits the exponent part is ignored (value 0), matching
how parseFloat stops at the last complete numeral. -/
def expVal (r : List Char) : ℤ :=
  let sn := splitSign r
  let ed := sn.2.takeWhile Char.isDigit
  if ed = [] then 0
  else if sn.1 then -(natOfDigits ed : ℤ) else (natOfDigits ed : ℤ)

/-- Model of JavaScript `parseFloat` on plain decimal numerals with an
optional fraction and scientific exponent: leading whitespace and one sign
are consumed, the longest valid numeral is read, trailing garbage is
ignored; `none` stands for a NaN result (no digit could be read). -/
def jsParseFloat (s : String) : Option ℚ :=
  let l0 := s.data.dropWhile jsWs
  let sn := splitSign l0
  let l1 := sn.2
  let ip := l1.takeWhile Char.isDigit
  let l2 := l1.dropWhile Char.isDigit
  let fp := match l2 with
    | '.' :: r => r.takeWhile Char.isDigit
    | _ => []
  let l3 := match l2 with
    | '.' :: r => r.dropWhile Char.isDigit
    | _ => l2
  if ip = [] ∧ fp = [] then none
  else
    let m : ℤ := Int.ofNat (natOfDigits ip * 10 ^ fp.length + natOfDigits fp)
    let signed : ℤ := if sn.1 then -m else m
    let ex : ℤ := match l3 with
      | 'e' :: r => expVal r
      | 'E' :: r => expVal r
      | _ => 0
    if 0 ≤ ex then some (mkRat (signed * Int.ofNat (10 ^ ex.toNat)) (10 ^ fp.length))
    else some (mkRat signed (10 ^ fp.length * 10 ^ (-ex).toNat))

/-- Model of JavaScript `parseInt` with no radix argument on decimal input:
leading whitespace and one sign are consumed, then the longest run of
leading digits; `none` stands for NaN (no digit). -/
def jsParseInt (s : String) : Option ℤ :=
  let l0 := s.data.dropWhile jsWs
  let sn := splitSign l0
  let ds := sn.2.takeWhile Char.isDigit
  if ds = [] then none
  else some (if sn.1 then -(natOfDigits ds : ℤ) else (natOfDigits ds : ℤ))

/-- The JavaScript idiom `a || b` on strings: the empty string is falsy. -/
def jsOr (a b : String) : String := if a = "" then b else a

/-- Model of `s.split(DELIM)` for a one-character comma delimiter:
every comma starts a new part, empty parts are kept, and the empty string
splits to one empty part. -/
def splitCommaChars : List Char → List (List Char)
  | [] => [[]]
  | ',' :: rest => [] :: splitCommaChars rest
  | c :: rest =>
    match splitCommaChars rest with
    | [] => [[c]]
    | g :: gs => (c :: g) :: gs

def jsSplitComma (s : String) : List String :=
  (splitCommaChars s.data).map fun l => ⟨l⟩

/-- Model of `s.trim()` (ASCII whitespace). -/
def jsTrim (s : String) : String :=
  ⟨((s.data.dropWhile jsWs).reverse.dropWhile jsWs).reverse⟩

/-- Does `pat` start the list `hay`? -/
def leadsWith : List Char → List Char → Bool
  | [], _ => true
  | _ :: _, [] => false
  | p :: ps, h :: hs => p == h && leadsWith ps hs

/-- Does `pat` occur somewhere inside `hay`?  Model of `hay.includes(pat)`. -/
def hasSubAux (pat : List Char) : List Char → Bool
  | [] => leadsWith pat []
  | h :: t => leadsWith pat (h :: t) || hasSubAux pat t

def strHasSub (hay pat : String) : Bool := hasSubAux pat.data hay.data

/-! ## Cell coercion (api/club-data.js revised, helpers safeGet / safeGetFloat / safeGetInt) -/

/-- `safeGet`: `row[index] || EMPTY`, with the literal sentinel "N/A"
treated as empty. -/
def safeGet (row : List String) (i : ℕ) : String :=
  let value := row.getD i ""
  if value = "N/A" then "" else value

/-- `safeGetFloat`: empty and "N/A" give 0, otherwise `parseFloat(value) || 0`
(a NaN result gives 0). -/
def safeGetFloat (row : List String) (i : ℕ) : ℚ :=
  let value := row.getD i ""
  if value = "N/A" ∨ value = "" then 0 else (jsParseFloat value).getD 0

/-- `safeGetInt`: empty and "N/A" give 0, otherwise `parseInt(value) || 0`. -/
def safeGetInt (row : List String) (i : ℕ) : ℤ :=
  let value := row.getD i ""
  if value = "N/A" ∨ value = "" then 0 else (jsParseInt value).getD 0

/-! ## Record types -/

/-- One session slot (time, date, type), api/club-data.js revised. -/
structure Session where
  time : String
  date : String
  kind : String
deriving DecidableEq

/-- One decoded testimonial of the revised single-record decoder: the slot
field `name` is emitted under the key `author`. -/
structure Testimonial where
  author : String
  rating : ℚ
  text : String
deriving DecidableEq

/-- One testimonial of the listing decoder api/clubs.js (keeps `name`). -/
structure TestimonialSlot where
  name : String
  rating : ℚ
  text : String
deriving DecidableEq

structure Benefit where
  icon : String
  title : String
  description : String
deriving DecidableEq

structure Faq where
  question : String
  answer : String
deriving DecidableEq

/-- The decoded record of the revised single-record decoder
(api/club-data.js, corrected column mapping revision), field for field.
The session field named `type` in the source is `kind` here because `type`
cannot be a field name in this development. -/
structure Club where
  club_id : String
  club_name : String
  active : String
  page_url : String
  booking_url : String
  activity_type : String
  club_logo_emoji : String
  location : String
  monthly_fee_amount : ℚ
  monthly_fee_text : String
  star_rating : String
  numeric_rating : ℚ
  rating_out_of : ℚ
  member_count : ℤ
  ranking_position : ℤ
  ranking_category : String
  sessions_per_week : ℤ
  average_attendance : ℤ
  member_growth : String
  sessions : List Session
  testimonials : List Testimonial
  benefits : List Benefit
  pay_per_session_price : ℚ
  savings_amount : ℚ
  faqs : List Faq
  club_bio : String
  coach_name : String
  coach_role : String
  coach_avatar : String
  facilities_list : String
  tags_who : String
  tags_vibe : String
  tags_accessibility : String
  email : String
  phone : String
  whatsapp : String
  instagram : String
  address : String
  hero_background_gradient : String
  image_url : String
  tags_array : List String
  facilities_array : List String
  is_beginner_friendly : Bool
  is_wheelchair_accessible : Bool
  is_all_ages : Bool
  review_count : ℕ
  monthly_fee : ℚ
  description : String
  rating : ℚ
  user_rating : ℚ
  total_members : ℤ
  age_groups : String
  skill_levels : String
  tags : String
  facilities : String
  instructor_name : String
  instructor_bio : String
  featured : Bool
  website : String
  club_code : String
deriving DecidableEq

/-! ## Repeating-group slots of the revised single-record decoder -/

/-- Session slot i occupies columns 19 + i*3 .. 19 + i*3 + 2. -/
def sessionSlot (row : List String) (i : ℕ) : Session :=
  { time := safeGet row (19 + i * 3)
    date := safeGet row (19 + i * 3 + 1)
    kind := safeGet row (19 + i * 3 + 2) }

/-- Completeness gate of the session group: `session.time && session.date`. -/
abbrev sessionComplete (s : Session) : Prop := s.time ≠ "" ∧ s.date ≠ ""

/-- Testimonial slot i occupies columns 31 + i*3 .. 31 + i*3 + 2; the slot
field name is emitted as author. -/
def testimonialSlot (row : List String) (i : ℕ) : Testimonial :=
  { author := safeGet row (31 + i * 3)
    rating := safeGetFloat row (31 + i * 3 + 1)
    text := safeGet row (31 + i * 3 + 2) }

/-- Completeness gate of the testimonial group:
`testimonial.name && testimonial.text` (author holds the slot name). -/
abbrev testimonialComplete (t : Testimonial) : Prop := t.author ≠ "" ∧ t.text ≠ ""

/-- Benefit slot i occupies columns 40 + i*3 .. 40 + i*3 + 2. -/
def benefitSlot (row : List String) (i : ℕ) : Benefit :=
  { icon := safeGet row (40 + i * 3)
    title := safeGet row (40 + i * 3 + 1)
    description := safeGet row (40 + i * 3 + 2) }

/-- Completeness gate of the benefit group: `benefit.title && benefit.description`. -/
abbrev benefitComplete (b : Benefit) : Prop := b.title ≠ "" ∧ b.description ≠ ""

/-- FAQ slot i occupies columns 60 + i*2 and 60 + i*2 + 1. -/
def faqSlot (row : List String) (i : ℕ) : Faq :=
  { question := safeGet row (60 + i * 2)
    answer := safeGet row (60 + i * 2 + 1) }

/-- Completeness gate of the FAQ group: `faq.question && faq.answer`. -/
abbrev faqComplete (f : Faq) : Prop := f.question ≠ "" ∧ f.answer ≠ ""

/-- The revised single-record decoder `parseClubData` of api/club-data.js
(corrected column mapping revision), including the computed properties and
legacy fields added after the literal. -/
def parseClubData (row : List String) : Club :=
  let club_id := safeGet row 0
  let club_name := jsOr (safeGet row 1) "Unknown Club"
  let monthly_fee_amount := safeGetFloat row 8
  let numeric_rating := safeGetFloat row 11
  let member_count := safeGetInt row 13
  let ranking_category := safeGet row 15
  let club_bio := safeGet row 70
  let coach_name := safeGet row 71
  let coach_role := safeGet row 72
  let facilities_list := safeGet row 74
  let tags_who := safeGet row 75
  let tags_vibe := safeGet row 76
  let tags_accessibility := safeGet row 77
  let sessions := (List.range 4).filterMap fun i =>
    if sessionComplete (sessionSlot row i) then some (sessionSlot row i) else none
  let testimonials := (List.range 3).filterMap fun i =>
    if testimonialComplete (testimonialSlot row i) then some (testimonialSlot row i) else none
  let benefits := (List.range 6).filterMap fun i =>
    if benefitComplete (benefitSlot row i) then some (benefitSlot row i) else none
  let faqs := (List.range 5).filterMap fun i =>
    if faqComplete (faqSlot row i) then some (faqSlot row i) else none
  let tags_array := [tags_who, tags_vibe, tags_accessibility].filter fun t => t != ""
  { club_id := club_id
    club_name := club_name
    active := jsOr (safeGet row 2) "no"
    page_url := safeGet row 3
    booking_url := safeGet row 4
    activity_type := safeGet row 5
    club_logo_emoji := jsOr (safeGet row 6) "üèõÔ∏è"
    location := safeGet row 7
    monthly_fee_amount := monthly_fee_amount
    monthly_fee_text := safeGet row 9
    star_rating := safeGet row 10
    numeric_rating := numeric_rating
    rating_out_of := (let q := safeGetFloat row 12; if q = 0 then 5 else q)
    member_count := member_count
    ranking_position := safeGetInt row 14
    ranking_category := ranking_category
    sessions_per_week := safeGetInt row 16
    average_attendance := safeGetInt row 17
    member_growth := safeGet row 18
    sessions := sessions
    testimonials := testimonials
    benefits := benefits
    pay_per_session_price := safeGetFloat row 58
    savings_amount := safeGetFloat row 59
    faqs := faqs
    club_bio := club_bio
    coach_name := coach_name
    coach_role := coach_role
    coach_avatar := safeGet row 73
    facilities_list := facilities_list
    tags_who := tags_who
    tags_vibe := tags_vibe
    tags_accessibility := tags_accessibility
    email := safeGet row 78
    phone := safeGet row 79
    whatsapp := safeGet row 80
    instagram := safeGet row 81
    address := safeGet row 82
    hero_background_gradient := safeGet row 83
    image_url := jsOr (safeGet row 84) ""
    tags_array := tags_array
    facilities_array :=
      if facilities_list = "" then [] else (jsSplitComma facilities_list).map jsTrim
    is_beginner_friendly := strHasSub (jsToLowerStr tags_who) "beginner"
    is_wheelchair_accessible := strHasSub (jsToLowerStr tags_accessibility) "wheelchair"
    is_all_ages := strHasSub (jsToLowerStr tags_who) "all ages"
    review_count := testimonials.length
    monthly_fee := monthly_fee_amount
    description := club_bio
    rating := numeric_rating
    user_rating := numeric_rating
    total_members := member_count
    age_groups := tags_who
    skill_levels := "All levels"
    tags := String.intercalate ", " tags_array
    facilities := facilities_list
    instructor_name := coach_name
    instructor_bio := coach_role
    featured := ranking_category == "Featured"
    website := ""
    club_code := slugStr (jsOr club_id club_name) }

/-! ## The listing decoder of api/clubs.js -/

/-- Raw cell access of api/clubs.js: `row[i] || EMPTY` (no sentinel handling). -/
def rowStr (row : List String) (i : ℕ) : String := row.getD i ""

/-- `parseFloat(row[i]) || 0` of api/clubs.js. -/
def rowFloat (row : List String) (i : ℕ) : ℚ := (jsParseFloat (row.getD i "")).getD 0

/-- `parseInt(row[i]) || 0` of api/clubs.js. -/
def rowInt (row : List String) (i : ℕ) : ℤ := (jsParseInt (row.getD i "")).getD 0

/-- The record produced for each active row by api/clubs.js. -/
structure ClubL where
  club_id : String
  club_name : String
  active : String
  page_url : String
  booking_url : String
  activity_type : String
  club_logo_emoji : String
  location : String
  monthly_fee_amount : ℚ
  monthly_fee_text : String
  star_rating : String
  numeric_rating : ℚ
  rating_out_of : ℚ
  member_count : ℤ
  ranking_position : ℤ
  ranking_category : String
  sessions_per_week : ℤ
  average_attendance : ℤ
  member_growth : String
  session_1_time : String
  session_1_date : String
  session_1_type : String
  session_2_time : String
  session_2_date : String
  session_2_type : String
  session_3_time : String
  session_3_date : String
  session_3_type : String
  session_4_time : String
  session_4_date : String
  session_4_type : String
  testimonials : List TestimonialSlot
  benefits : List Benefit
  pay_per_session_price : ℚ
  savings_amount : ℚ
  faqs : List Faq
  club_bio : String
  coach_name : String
  coach_role : String
  coach_avatar : String
  facilities_list : String
  tags_who : String
  tags_vibe : String
  tags_accessibility : String
  email : String
  phone : String
  whatsapp : String
  instagram : String
  address : String
  hero_background_gradient : String
  monthly_fee : ℚ
  description : String
  rating : ℚ
  user_rating : ℚ
  review_count : ℕ
  total_members : ℤ
  age_groups : String
  skill_levels : String
  tags : String
  facilities : String
  instructor_name : String
  instructor_bio : String
  featured : Bool
  website : String
  image_url : String
  club_code : String
  is_beginner_friendly : Bool
  is_wheelchair_accessible : Bool
  is_all_ages : Bool
deriving DecidableEq

/-- Testimonial slot of the listing decoder (raw cells, keeps the key name). -/
def testimonialSlotL (row : List String) (i : ℕ) : TestimonialSlot :=
  { name := rowStr row (31 + i * 3)
    rating := rowFloat row (31 + i * 3 + 1)
    text := rowStr row (31 + i * 3 + 2) }

abbrev testimonialSlotComplete (t : TestimonialSlot) : Prop := t.name ≠ "" ∧ t.text ≠ ""

/-- Benefit slot of the listing decoder (raw cells). -/
def benefitSlotL (row : List String) (i : ℕ) : Benefit :=
  { icon := rowStr row (40 + i * 3)
    title := rowStr row (40 + i * 3 + 1)
    description := rowStr row (40 + i * 3 + 2) }

/-- FAQ slot of the listing decoder (raw cells). -/
def faqSlotL (row : List String) (i : ℕ) : Faq :=
  { question := rowStr row (60 + i * 2)
    answer := rowStr row (60 + i * 2 + 1) }

/-- The per-row record literal of api/clubs.js, lines 67-234. -/
def clubL (row : List String) : ClubL :=
  { club_id := rowStr row 0
    club_name := jsOr (rowStr row 1) "Unknown Club"
    active := jsOr (rowStr row 2) "no"
    page_url := rowStr row 3
    booking_url := rowStr row 4
    activity_type := rowStr row 5
    club_logo_emoji := jsOr (rowStr row 6) "🏛️"
    location := rowStr row 7
    monthly_fee_amount := rowFloat row 8
    monthly_fee_text := rowStr row 9
    star_rating := rowStr row 10
    numeric_rating := rowFloat row 11
    rating_out_of := (let q := rowFloat row 12; if q = 0 then 5 else q)
    member_count := rowInt row 13
    ranking_position := rowInt row 14
    ranking_category := rowStr row 15
    sessions_per_week := rowInt row 16
    average_attendance := rowInt row 17
    member_growth := rowStr row 18
    session_1_time := rowStr row 19
    session_1_date := rowStr row 20
    session_1_type := rowStr row 21
    session_2_time := rowStr row 22
    session_2_date := rowStr row 23
    session_2_type := rowStr row 24
    session_3_time := rowStr row 25
    session_3_date := rowStr row 26
    session_3_type := rowStr row 27
    session_4_time := rowStr row 28
    session_4_date := rowStr row 29
    session_4_type := rowStr row 30
    testimonials := (List.range 3).filterMap fun i =>
      if testimonialSlotComplete (testimonialSlotL row i) then some (testimonialSlotL row i) else none
    benefits := (List.range 6).filterMap fun i =>
      if benefitComplete (benefitSlotL row i) then some (benefitSlotL row i) else none
    pay_per_session_price := rowFloat row 58
    savings_amount := rowFloat row 59
    faqs := (List.range 5).filterMap fun i =>
      if faqComplete (faqSlotL row i) then some (faqSlotL row i) else none
    club_bio := rowStr row 70
    coach_name := rowStr row 71
    coach_role := rowStr row 72
    coach_avatar := rowStr row 73
    facilities_list := rowStr row 74
    tags_who := rowStr row 75
    tags_vibe := rowStr row 76
    tags_accessibility := rowStr row 77
    email := rowStr row 78
    phone := rowStr row 79
    whatsapp := rowStr row 80
    instagram := rowStr row 81
    address := rowStr row 82
    hero_background_gradient := rowStr row 83
    monthly_fee := rowFloat row 8
    description := rowStr row 70
    rating := rowFloat row 11
    user_rating := rowFloat row 11
    review_count := 0
    total_members := rowInt row 13
    age_groups := rowStr row 75
    skill_levels := "All levels"
    tags := String.intercalate ", "
      ([rowStr row 75, rowStr row 76, rowStr row 77].filter fun t => t != "")
    facilities := rowStr row 74
    instructor_name := rowStr row 71
    instructor_bio := rowStr row 72
    featured := rowStr row 15 == "Featured"
    website := ""
    image_url := "https://source.unsplash.com/featured/?" ++ jsOr (rowStr row 5) "fitness"
    club_code := jsOr (rowStr row 0) (lowerCollapse (rowStr row 1))
    is_beginner_friendly := strHasSub (jsToLowerStr (rowStr row 75)) "beginner"
    is_wheelchair_accessible := strHasSub (jsToLowerStr (rowStr row 77)) "wheelchair"
    is_all_ages := strHasSub (jsToLowerStr (rowStr row 75)) "all ages" }

/-- The active-flag test used by both endpoints:
`row[2] && row[2].toString().toLowerCase() === YES`. -/
def isActive (row : List String) : Bool :=
  (row.getD 2 "" != "") && (jsToLowerStr (row.getD 2 "") == "yes")

/-- The full-listing operation of api/clubs.js: skip the header row, keep the
rows that pass the active test, decode each survivor, in source row order. -/
def listActive (rows : List (List String)) : List ClubL :=
  ((rows.drop 1).filter fun row => isActive row).map clubL

/-! ## Lookup by code (api/club-data.js revised handler) -/

/-- The URL identifier computed by the lookup handler from the raw id and
name cells: `(clubId || clubName)?.toString()` then the slug derivation. -/
def urlIdentifier (row : List String) : String :=
  slugStr (jsOr (row.getD 0 "") (row.getD 1 ""))

/-- The row search of the lookup handler: first data row that is active and
whose URL identifier equals the lower-cased requested code. -/
def findClubRow (rows : List (List String)) (code : String) : Option (List String) :=
  (rows.drop 1).find? fun row => isActive row && (urlIdentifier row == jsToLowerStr code)

/-- The diagnostic list built on a miss: slugs of the active data rows, with
falsy (empty) slugs removed by `.filter(Boolean)`. -/
def availableCodes (rows : List (List String)) : List String :=
  ((((rows.drop 1).filter fun row => isActive row).map fun row => urlIdentifier row).filter
    fun s => s != "")

/-- Outcome of the lookup endpoint: either a decoded record, or the
structured not-found payload `searched_code / available_codes /
total_active_clubs` of the 404 response. -/
inductive ClubDataResult where
  | found : Club → ClubDataResult
  | notFound : String → List String → ℕ → ClubDataResult
deriving DecidableEq

/-- The lookup operation: find the row, decode it, or report not-found with
the diagnostic payload (`total_active_clubs` is the length of the
`available_codes` list in the source). -/
def clubData (rows : List (List String)) (code : String) : ClubDataResult :=
  match findClubRow rows code with
  | some row => ClubDataResult.found (parseClubData row)
  | none => ClubDataResult.notFound code (availableCodes rows) (availableCodes rows).length

/-- Projection used to state properties of a successful lookup. -/
def foundCode : ClubDataResult → Option String
  | ClubDataResult.found c => some c.club_code
  | ClubDataResult.notFound _ _ _ => none

/-! ## General lemmas about gated repeating groups -/

/-- A slot object produced by a gated filterMap over slot indices is in the
output exactly when the gate holds of that object: the gates read only the
fields of the produced object, so duplicate slot contents cannot smuggle an
incomplete slot in or a complete slot out. -/
lemma mem_gatedSlots {α : Type} (f : ℕ → α) (p : α → Prop) [DecidablePred p]
    {n i : ℕ} (hi : i < n) :
    (f i ∈ (List.range n).filterMap fun j => if p (f j) then some (f j) else none) ↔
      p (f i) := by
  constructor
  · intro h
    obtain ⟨j, _, hsome⟩ := List.mem_filterMap.mp h
    by_cases hp : p (f j)
    · rw [if_pos hp] at hsome
      exact (Option.some.inj hsome) ▸ hp
    · rw [if_neg hp] at hsome
      exact absurd hsome (by simp)
  · intro hp
    exact List.mem_filterMap.mpr ⟨i, List.mem_range.mpr hi, by rw [if_pos hp]⟩

/-- Length of a gated filterMap equals the number of indices passing the gate. -/
lemma length_filterMap_guard {α β : Type} (l : List α) (f : α → β) (p : α → Prop)
    [DecidablePred p] :
    (l.filterMap fun a => if p a then some (f a) else none).length =
      (l.filter fun a => decide (p a)).length := by
  induction l with
  | nil => rfl
  | cons a t ih =>
    by_cases hp : p a
    · simp [List.filterMap_cons, List.filter_cons, hp, ih]
    · simp [List.filterMap_cons, List.filter_cons, hp, ih]

/-- Mapping and then removing empty strings is the same as a filterMap that
skips the elements whose image is empty. -/
lemma filter_map_ne_empty {α : Type} (l : List α) (g : α → String) :
    ((l.map g).filter fun s => s != "") =
      l.filterMap fun a => if g a = "" then none else some (g a) := by
  induction l with
  | nil => rfl
  | cons a t ih =>
    by_cases h : g a = ""
    · simp [List.map_cons, List.filter_cons, List.filterMap_cons, h, ih]
    · simp [List.map_cons, List.filter_cons, List.filterMap_cons, h, ih]

/-! ## Demo inputs used by concrete parts of the claims -/

/-- An active data row with one complete testimonial in slot 0. -/
def rowWithTestimonial : List String :=
  ["id1", "Club", "yes"] ++ List.replicate 28 "" ++ ["Ann", "5", "Great"]

/-- Three data rows of which exactly one carries the value YES. -/
def threeRowInput : List (List String) :=
  [["h"], ["a1", "A", "no"], ["a2", "B", "YES"], ["a3", "C", "nope"]]

/-- A data row whose testimonial slot 0 has a name but empty text. -/
def rowNameNoText : List String := List.replicate 31 "" ++ ["Alice", "", ""]

/-- A data row whose facilities cell contains an empty part. -/
def rowFacilitiesGap : List String := List.replicate 74 "" ++ ["a,,b"]

/-- A data row whose facilities cell contains a blank part. -/
def rowFacilitiesBlank : List String := List.replicate 74 "" ++ ["a, ,b"]

/-- Two active rows: one with a good slug, one whose id and name normalize
to the empty slug. -/
def twoActiveRows : List (List String) :=
  [[], ["good", "", "yes"], ["", "!!!", "yes"]]

/-- One active row whose id and name normalize to the empty slug. -/
def oneEmptySlugRow : List (List String) := [[], ["", "!!!", "yes"]]

/-! ## Claims -/

/-- Claim C1 (counterexample): in the full-listing operation, a row with one
complete testimonial yields a record whose review_count is 0 while its
testimonial sequence has length 1, so review_count does not equal the length
of the testimonial sequence there. -/
theorem c1_listing_review_count_cex :
    ((listActive [[], rowWithTestimonial]).map fun c =>
      (c.review_count, c.testimonials.length)) = [(0, 1)] := by decide

/-- Claim C1 (amended): in the single-record lookup decoder, review_count
equals the number of testimonial slots that pass the completeness gate
(the length of the testimonial sequence); in the full-listing decoder of
api/clubs.js, review_count is the constant 0 regardless of the testimonials. -/
theorem c1_review_count :
    (∀ row, (parseClubData row).review_count =
      ((List.range 3).filter fun i =>
        decide (testimonialComplete (testimonialSlot row i))).length) ∧
    (∀ row, (clubL row).review_count = 0) := by
  constructor
  · intro row
    show ((List.range 3).filterMap fun i =>
        if testimonialComplete (testimonialSlot row i) then some (testimonialSlot row i)
        else none).length = _
    exact length_filterMap_guard (List.range 3) (fun i => testimonialSlot row i)
      (fun i => testimonialComplete (testimonialSlot row i))
  · intro row
    rfl

/-- Claim C2 (counterexample): a data row whose active column holds "true"
or "1" is not treated as active, and listActive returns no record for it,
refuting case-insensitive membership in the set containing yes, true and 1. -/
theorem c2_active_cex :
    isActive ["i", "n", "true"] = false ∧ isActive ["i", "n", "1"] = false ∧
    listActive [[], ["i", "n", "true"]] = [] ∧
    listActive [[], ["i", "n", "1"]] = [] := by decide

/-- Claim C2 (amended): a row is treated as active exactly when its active
column lower-cases to the single word yes; on 3 data rows of which exactly
one holds "YES", listActive returns exactly 1 record. -/
theorem c2_active_iff_yes :
    (∀ row, isActive row = true ↔ jsToLowerStr (row.getD 2 "") = "yes") ∧
    (listActive threeRowInput).length = 1 := by
  constructor
  · intro row
    unfold isActive
    constructor
    · intro h
      simp only [Bool.and_eq_true, bne_iff_ne, ne_eq, beq_iff_eq] at h
      exact h.2
    · intro h
      have hne : row.getD 2 "" ≠ "" := by
        intro hv
        rw [hv] at h
        exact absurd h (by decide)
      simp only [Bool.and_eq_true, bne_iff_ne, ne_eq, beq_iff_eq]
      exact ⟨hne, h⟩
  · decide

/-- Claim C3 (counterexample): in the full-listing operation a row with
non-empty id "My Club!" yields a record whose club_code is the raw id,
not the slug derivation "my-club"; and for an empty id the name branch
lower-cases and collapses but does not strip edge dashes. -/
theorem c3_club_code_cex :
    ((listActive [[], ["My Club!", "n", "yes"]]).map fun c => c.club_code) =
        ["My Club!"] ∧
    slugStr "My Club!" = "my-club" ∧ ("My Club!" : String) ≠ "my-club" ∧
    (clubL ["", "!x!", "yes"]).club_code = "-x-" := by decide

/-- Claim C3 (amended): the single-record lookup decoder derives club_code
by the full slug rule from id when non-empty, else from the name; the
concrete findBySlug test with empty id and name "5-a-Side Football!" yields
slug "5-a-side-football"; the listing decoder instead keeps a non-empty raw
id unchanged as club_code. -/
theorem c3_club_code :
    (∀ row, safeGet row 0 ≠ "" →
      (parseClubData row).club_code = slugStr (safeGet row 0)) ∧
    (∀ row, safeGet row 0 = "" → safeGet row 1 ≠ "" →
      (parseClubData row).club_code = slugStr (safeGet row 1)) ∧
    (∀ row, row.getD 0 "" ≠ "" → (clubL row).club_code = row.getD 0 "") ∧
    foundCode (clubData [[], ["", "5-a-Side Football!", "yes"]] "5-a-side-football") =
      some "5-a-side-football" := by
  refine ⟨?_, ?_, ?_, by decide⟩
  · intro row h
    show slugStr (jsOr (safeGet row 0) (jsOr (safeGet row 1) "Unknown Club")) = _
    unfold jsOr
    rw [if_neg h]
  · intro row h0 h1
    show slugStr (jsOr (safeGet row 0) (jsOr (safeGet row 1) "Unknown Club")) = _
    unfold jsOr
    rw [if_pos h0, if_neg h1]
  · intro row h
    show jsOr (rowStr row 0) (lowerCollapse (rowStr row 1)) = _
    unfold jsOr rowStr
    rw [if_neg h]

/-- Claim C3 (witness). -/
theorem c3_club_code_witness :
    (safeGet ["Ab!"] 0 ≠ "") ∧ (parseClubData ["Ab!"]).club_code = slugStr (safeGet ["Ab!"] 0) :=
  ⟨by decide, c3_club_code.1 ["Ab!"] (by decide)⟩

/-- Claim C5: for every row, a slot of each repeating group (sessions,
testimonials, benefits, FAQs) appears in the decoded sequence exactly when
every field of the completeness set of that group is non-empty after
coercion; a testimonial slot with a name but empty text is dropped entirely. -/
theorem c5_group_completeness :
    (∀ row i,
      (i < 4 → ((sessionSlot row i ∈ (parseClubData row).sessions) ↔
        sessionComplete (sessionSlot row i))) ∧
      (i < 3 → ((testimonialSlot row i ∈ (parseClubData row).testimonials) ↔
        testimonialComplete (testimonialSlot row i))) ∧
      (i < 6 → ((benefitSlot row i ∈ (parseClubData row).benefits) ↔
        benefitComplete (benefitSlot row i))) ∧
      (i < 5 → ((faqSlot row i ∈ (parseClubData row).faqs) ↔
        faqComplete (faqSlot row i)))) ∧
    (parseClubData rowNameNoText).testimonials = [] := by
  refine ⟨?_, by decide⟩
  intro row i
  refine ⟨fun hi => ?_, fun hi => ?_, fun hi => ?_, fun hi => ?_⟩
  · have e : (parseClubData row).sessions = (List.range 4).filterMap fun j =>
        if sessionComplete (sessionSlot row j) then some (sessionSlot row j) else none := rfl
    rw [e]
    exact mem_gatedSlots (fun j => sessionSlot row j) sessionComplete hi
  · have e : (parseClubData row).testimonials = (List.range 3).filterMap fun j =>
        if testimonialComplete (testimonialSlot row j) then some (testimonialSlot row j)
        else none := rfl
    rw [e]
    exact mem_gatedSlots (fun j => testimonialSlot row j) testimonialComplete hi
  · have e : (parseClubData row).benefits = (List.range 6).filterMap fun j =>
        if benefitComplete (benefitSlot row j) then some (benefitSlot row j) else none := rfl
    rw [e]
    exact mem_gatedSlots (fun j => benefitSlot row j) benefitComplete hi
  · have e : (parseClubData row).faqs = (List.range 5).filterMap fun j =>
        if faqComplete (faqSlot row j) then some (faqSlot row j) else none := rfl
    rw [e]
    exact mem_gatedSlots (fun j => faqSlot row j) faqComplete hi

/-- Claim C5 (witness): the complete testimonial slot 0 of the demo row is
in the decoded sequence. -/
theorem c5_group_completeness_witness :
    (0 < 3) ∧ testimonialSlot rowWithTestimonial 0 ∈
      (parseClubData rowWithTestimonial).testimonials :=
  ⟨by decide,
    ((c5_group_completeness.1 rowWithTestimonial 0).2.1 (by decide)).mpr (by decide)⟩

/-- Claim C6: the numeric coercions return 0 on an empty cell, on the
sentinel "N/A" and on any cell the numeral parser rejects, and the integer
parse reads the leading digits, so safeGetFloat of a row holding "N/A" at
column 0 is 0 and safeGetInt of a row holding "7.9" at column 0 is 7.
They are total functions, so no input makes them fail. -/
theorem c6_coercion_defaults :
    (∀ (row : List String) (i : ℕ), row.getD i "" = "" ∨ row.getD i "" = "N/A" →
      safeGetFloat row i = 0 ∧ safeGetInt row i = 0) ∧
    (∀ (row : List String) (i : ℕ), jsParseFloat (row.getD i "") = none →
      safeGetFloat row i = 0) ∧
    (∀ (row : List String) (i : ℕ), jsParseInt (row.getD i "") = none →
      safeGetInt row i = 0) ∧
    safeGetFloat ["N/A"] 0 = 0 ∧ safeGetInt ["7.9"] 0 = 7 := by
  refine ⟨?_, ?_, ?_, by decide, by decide⟩
  · intro row i h
    constructor
    · unfold safeGetFloat
      rcases h with h | h
      · rw [if_pos (Or.inr h)]
      · rw [if_pos (Or.inl h)]
    · unfold safeGetInt
      rcases h with h | h
      · rw [if_pos (Or.inr h)]
      · rw [if_pos (Or.inl h)]
  · intro row i h
    unfold safeGetFloat
    by_cases hc : row.getD i "" = "N/A" ∨ row.getD i "" = ""
    · rw [if_pos hc]
    · rw [if_neg hc, h]
      rfl
  · intro row i h
    unfold safeGetInt
    by_cases hc : row.getD i "" = "N/A" ∨ row.getD i "" = ""
    · rw [if_pos hc]
    · rw [if_neg hc, h]
      rfl

/-- Claim C6 (witness). -/
theorem c6_coercion_defaults_witness :
    (List.getD ([] : List String) 0 "" = "" ∨ List.getD ([] : List String) 0 "" = "N/A") ∧
    (safeGetFloat [] 0 = 0 ∧ safeGetInt [] 0 = 0) :=
  ⟨by decide, c6_coercion_defaults.1 [] 0 (by decide)⟩

/-- Claim C7 (counterexample): a facilities cell "a,,b" (or "a, ,b") decodes
to the array with the empty middle part kept, not to the two-element array
the claim requires. -/
theorem c7_split_cex :
    (parseClubData rowFacilitiesGap).facilities_array = ["a", "", "b"] ∧
    (parseClubData rowFacilitiesBlank).facilities_array = ["a", "", "b"] ∧
    (["a", "", "b"] : List String) ≠ ["a", "b"] := by decide

/-- Claim C7 (amended): facilities_array splits the facilities cell on the
comma and trims each part but keeps empty parts (only a wholly empty cell
gives the empty array); tags_array is not a split at all - it is the list of
the three non-empty tag cells, so all of its entries are non-empty. -/
theorem c7_derived_arrays :
    (∀ row, (parseClubData row).facilities_array =
      (if safeGet row 74 = "" then []
       else (jsSplitComma (safeGet row 74)).map jsTrim)) ∧
    (∀ row, (parseClubData row).tags_array =
      [safeGet row 75, safeGet row 76, safeGet row 77].filter fun t => t != "") ∧
    (∀ row s, s ∈ (parseClubData row).tags_array → s ≠ "") := by
  refine ⟨fun row => rfl, fun row => rfl, ?_⟩
  intro row s hs
  have e : (parseClubData row).tags_array =
      [safeGet row 75, safeGet row 76, safeGet row 77].filter fun t => t != "" := rfl
  rw [e] at hs
  have := (List.mem_filter.mp hs).2
  simpa using this

/-- Claim C7 (witness). -/
theorem c7_derived_arrays_witness :
    ("X" ∈ (parseClubData (List.replicate 75 "" ++ ["X"])).tags_array) ∧ ("X" : String) ≠ "" :=
  ⟨by decide, c7_derived_arrays.2.2 (List.replicate 75 "" ++ ["X"]) "X" (by decide)⟩

/-- Modelled from the spec words of the amended claim C8: the derived slug of
each active data row, in row order, omitting the rows whose derived slug is
empty. -/
def specAvailableCodes (rows : List (List String)) : List String :=
  ((rows.drop 1).filter fun row => isActive row).filterMap fun row =>
    if urlIdentifier row = "" then none else some (urlIdentifier row)

lemma availableCodes_eq_spec (rows : List (List String)) :
    availableCodes rows = specAvailableCodes rows := by
  unfold availableCodes specAvailableCodes
  exact filter_map_ne_empty _ _

/-- Claim C8 (counterexample): against a set with one active record whose id
and name normalize to the empty slug, an unknown code yields a not-found
result whose diagnostic list is empty and whose reported count is 0, not the
one slug per active record the claim requires (the source has no count
bound; the record is missing because its slug is falsy). -/
theorem c8_not_found_cex :
    clubData oneEmptySlugRow "missing" = ClubDataResult.notFound "missing" [] 0 ∧
    ((oneEmptySlugRow.drop 1).filter fun row => isActive row).length = 1 := by decide

/-- Claim C8 (amended): when no row matches, the lookup returns (never
throws) a structured not-found result carrying the requested key, the list
of the non-empty slugs of the active rows in row order (with no count
bound), and a total that is the length of that list. -/
theorem c8_not_found :
    ∀ rows code, findClubRow rows code = none →
      clubData rows code =
        ClubDataResult.notFound code (specAvailableCodes rows)
          (specAvailableCodes rows).length := by
  intro rows code h
  unfold clubData
  rw [h, availableCodes_eq_spec]

/-- Claim C8 (witness). -/
theorem c8_not_found_witness :
    (findClubRow [[], ["g", "", "yes"]] "zz" = none) ∧
    clubData [[], ["g", "", "yes"]] "zz" =
      ClubDataResult.notFound "zz" (specAvailableCodes [[], ["g", "", "yes"]])
        (specAvailableCodes [[], ["g", "", "yes"]]).length :=
  ⟨by decide, c8_not_found [[], ["g", "", "yes"]] "zz" (by decide)⟩

/-- Claim C10: the diagnostic available_codes list never contains an empty
slug, so active rows whose id and name normalize to the empty string are
omitted; on the demo input with two active rows, one of which has the empty
slug, the list is strictly shorter than the number of active rows and the
reported total_active_clubs is the length of the list, not the active count. -/
theorem c10_available_codes_nonempty :
    (∀ rows s, s ∈ availableCodes rows → s ≠ "") ∧
    (availableCodes twoActiveRows).length <
      ((twoActiveRows.drop 1).filter fun row => isActive row).length ∧
    clubData twoActiveRows "zz" = ClubDataResult.notFound "zz" ["good"] 1 := by
  refine ⟨?_, by decide, by decide⟩
  intro rows s hs
  unfold availableCodes at hs
  have := (List.mem_filter.mp hs).2
  simpa using this

/-- Claim C10 (witness). -/
theorem c10_available_codes_nonempty_witness :
    ("good" ∈ availableCodes twoActiveRows) ∧ ("good" : String) ≠ "" :=
  ⟨by decide, c10_available_codes_nonempty.1 twoActiveRows "good" (by decide)⟩

/-- The record the single-record lookup decoder produces when every cell is
missing or the sentinel: written out field by field so the non-empty,
non-zero defaults (club_name, active, club_logo_emoji, rating_out_of,
skill_levels, and the derived club_code) are visible. -/
def allDefaultsClub : Club :=
  { club_id := ""
    club_name := "Unknown Club"
    active := "no"
    page_url := ""
    booking_url := ""
    activity_type := ""
    club_logo_emoji := "üèõÔ∏è"
    location := ""
    monthly_fee_amount := 0
    monthly_fee_text := ""
    star_rating := ""
    numeric_rating := 0
    rating_out_of := 5
    member_count := 0
    ranking_position := 0
    ranking_category := ""
    sessions_per_week := 0
    average_attendance := 0
    member_growth := ""
    sessions := []
    testimonials := []
    benefits := []
    pay_per_session_price := 0
    savings_amount := 0
    faqs := []
    club_bio := ""
    coach_name := ""
    coach_role := ""
    coach_avatar := ""
    facilities_list := ""
    tags_who := ""
    tags_vibe := ""
    tags_accessibility := ""
    email := ""
    phone := ""
    whatsapp := ""
    instagram := ""
    address := ""
    hero_background_gradient := ""
    image_url := ""
    tags_array := []
    facilities_array := []
    is_beginner_friendly := false
    is_wheelchair_accessible := false
    is_all_ages := false
    review_count := 0
    monthly_fee := 0
    description := ""
    rating := 0
    user_rating := 0
    total_members := 0
    age_groups := ""
    skill_levels := "All levels"
    tags := ""
    facilities := ""
    instructor_name := ""
    instructor_bio := ""
    featured := false
    website := ""
    club_code := "unknown-club" }

/-- The record the listing decoder produces when every cell is missing:
again the non-empty, non-zero defaults (club_name, active, club_logo_emoji,
rating_out_of, skill_levels, image_url) are visible. -/
def allDefaultsClubL : ClubL :=
  { club_id := ""
    club_name := "Unknown Club"
    active := "no"
    page_url := ""
    booking_url := ""
    activity_type := ""
    club_logo_emoji := "🏛️"
    location := ""
    monthly_fee_amount := 0
    monthly_fee_text := ""
    star_rating := ""
    numeric_rating := 0
    rating_out_of := 5
    member_count := 0
    ranking_position := 0
    ranking_category := ""
    sessions_per_week := 0
    average_attendance := 0
    member_growth := ""
    session_1_time := ""
    session_1_date := ""
    session_1_type := ""
    session_2_time := ""
    session_2_date := ""
    session_2_type := ""
    session_3_time := ""
    session_3_date := ""
    session_3_type := ""
    session_4_time := ""
    session_4_date := ""
    session_4_type := ""
    testimonials := []
    benefits := []
    pay_per_session_price := 0
    savings_amount := 0
    faqs := []
    club_bio := ""
    coach_name := ""
    coach_role := ""
    coach_avatar := ""
    facilities_list := ""
    tags_who := ""
    tags_vibe := ""
    tags_accessibility := ""
    email := ""
    phone := ""
    whatsapp := ""
    instagram := ""
    address := ""
    hero_background_gradient := ""
    monthly_fee := 0
    description := ""
    rating := 0
    user_rating := 0
    review_count := 0
    total_members := 0
    age_groups := ""
    skill_levels := "All levels"
    tags := ""
    facilities := ""
    instructor_name := ""
    instructor_bio := ""
    featured := false
    website := ""
    image_url := "https://source.unsplash.com/featured/?fitness"
    club_code := ""
    is_beginner_friendly := false
    is_wheelchair_accessible := false
    is_all_ages := false }

/-- Claim C4 (counterexample): on an all-missing row the decoded club_name
defaults to "Unknown Club" and rating_out_of to 5, and in the listing
decoder a sentinel "N/A" string cell is kept verbatim - three scalar fields
whose default is not the empty string, 0 or 0.0. -/
theorem c4_defaults_cex :
    (parseClubData []).club_name = "Unknown Club" ∧
    (parseClubData []).rating_out_of = 5 ∧
    (clubL (List.replicate 85 "N/A")).location = "N/A" := by decide

/-- Claim C4 (amended): on an all-missing row, and in the lookup decoder
also on an all-sentinel row, every scalar field takes the empty string or a
zero default except club_name ("Unknown Club"), active ("no"),
club_logo_emoji (a building glyph), rating_out_of (5), skill_levels
("All levels") and, in the listing decoder, image_url (a stock photo URL);
the listing decoder does not treat "N/A" as missing for string cells.
The two default records are written out field by field. -/
theorem c4_defaults :
    parseClubData [] = allDefaultsClub ∧
    parseClubData (List.replicate 85 "N/A") = allDefaultsClub ∧
    clubL [] = allDefaultsClubL ∧
    (∀ row, safeGet row 1 = "" → (parseClubData row).club_name = "Unknown Club") := by
  refine ⟨by decide, by decide, by decide, ?_⟩
  intro row h
  show jsOr (safeGet row 1) "Unknown Club" = _
  unfold jsOr
  rw [if_pos h]

/-- Claim C4 (witness). -/
theorem c4_defaults_witness :
    (safeGet ["x", "N/A"] 1 = "") ∧ (parseClubData ["x", "N/A"]).club_name = "Unknown Club" :=
  ⟨by decide, c4_defaults.2.2.2 ["x", "N/A"] (by decide)⟩

end ClubDir
